import Mathlib

/-!
Shallow embedding of the event-sourced enrollment core
(`haru01/take7_functional_ddd_sample`).

Modelling conventions:
* TypeScript `Date` values are epoch instants modelled as `Nat`; every
  `new Date()` call inside a single synchronous function invocation is
  modelled as one instant parameter `now` (the code runs in well under a
  millisecond, the `Date` resolution).  `Date.prototype.toISOString` is
  modelled as decimal rendering (an injective rendering is all the code
  relies on).
* JS numbers holding versions are modelled as `Int` (all arithmetic in the
  source stays far inside the exact-integer range of doubles).
* The bespoke `Result` type of `src/shared/types/result.ts` is embedded as
  an inductive with the same combinators.
* zod schema regex checks are embedded as decidable character predicates.
* `Array.prototype.sort` with comparator `a.version - b.version` (stable in
  modern engines) is modelled by the stable `List.insertionSort`.
-/

namespace EnrollmentCore

/-- `Result<T, E>` from `src/shared/types/result.ts`. -/
inductive Result (T : Type) (E : Type) where
  | Ok (data : T)
  | Err (error : E)
deriving Repr, DecidableEq

/-- `map` from `result.ts`. -/
def Result.map {T U E : Type} (result : Result T E) (fn : T → U) : Result U E :=
  match result with
  | .Ok data => .Ok (fn data)
  | .Err e => .Err e

/-- `flatMap` from `result.ts`. -/
def Result.flatMap {T U E : Type} (result : Result T E) (fn : T → Result U E) : Result U E :=
  match result with
  | .Ok data => fn data
  | .Err e => .Err e

/-- Whether a result is the success variant (`result.success` in the source). -/
def Result.isOk {T E : Type} : Result T E → Bool
  | .Ok _ => true
  | .Err _ => false

/-- `EnrollmentError` from `contexts/enrollment/domain/errors/errors.ts`:
a discriminated union of validation, business-rule, not-found and
concurrency errors.  The optional `details`/`context` records carry no
information any claim inspects and are omitted. -/
inductive EnrollmentError where
  | validationError (message : String) (code : String) (timestamp : Nat)
      (field : Option String) (value : Option String)
  | businessRuleError (rule : String) (message : String) (code : String) (timestamp : Nat)
  | notFoundError (entity : String) (id : String) (message : String) (code : String)
      (timestamp : Nat)
  | concurrencyError (expectedVersion : Int) (actualVersion : Int) (entityId : String)
      (message : String) (code : String) (timestamp : Nat)
deriving Repr, DecidableEq

/-- The stable `code` string every error variant carries. -/
def EnrollmentError.code : EnrollmentError → String
  | .validationError _ c _ _ _ => c
  | .businessRuleError _ _ c _ => c
  | .notFoundError _ _ _ c _ => c
  | .concurrencyError _ _ _ _ c _ => c

/-- `'expectedVersion' in error ? error.expectedVersion : undefined`. -/
def EnrollmentError.expectedVersionField : EnrollmentError → Option Int
  | .concurrencyError e _ _ _ _ _ => some e
  | _ => none

/-- `'actualVersion' in error ? error.actualVersion : undefined`. -/
def EnrollmentError.actualVersionField : EnrollmentError → Option Int
  | .concurrencyError _ a _ _ _ _ => some a
  | _ => none

/-- `createValidationError` from `errors.ts`. -/
def createValidationError (message : String) (code : String := "VALIDATION_FAILED")
    (now : Nat) (field : Option String := none) (value : Option String := none) :
    EnrollmentError :=
  .validationError message code now field value

/-- `createBusinessRuleError` from `errors.ts`. -/
def createBusinessRuleError (rule : String) (message : String) (code : String)
    (now : Nat) : EnrollmentError :=
  .businessRuleError rule message code now

/-- `createConcurrencyError` from `errors.ts`. -/
def createConcurrencyError (expectedVersion : Int) (actualVersion : Int)
    (entityId : String) (now : Nat) : EnrollmentError :=
  .concurrencyError expectedVersion actualVersion entityId
    ("Optimistic lock failure. Expected version " ++ toString expectedVersion ++
      ", but was " ++ toString actualVersion)
    "CONCURRENCY_ERROR" now

/-- Payload of an `EnrollmentRequested` event (`data` in
`domain-events.ts`); `metadata` is the optional free-form record. -/
structure EventData where
  semester : String
  requestedAt : Nat
  metadata : Option (List (String × String)) := none
deriving Repr, DecidableEq

/-- `EnrollmentDomainEvent` from `domain-events.ts`.  The discriminated
union currently has the single member `EnrollmentRequestedEvent`, whose
`eventType` tag is the string literal `'EnrollmentRequested'`; the tag is
kept as a `String` field because `validateEventSequence` and
`reconstructEnrollmentFromEvents` branch on it by string comparison. -/
structure EnrollmentDomainEvent where
  studentId : String
  courseId : String
  eventType : String
  occurredAt : Nat
  version : Int
  correlationId : Option String := none
  causationId : Option String := none
  data : EventData
deriving Repr, DecidableEq

/-- Options bag accepted by `createEnrollmentRequestedEvent` and
`requestEnrollment`. -/
structure RequestOptions where
  correlationId : Option String := none
  causationId : Option String := none
  metadata : Option (List (String × String)) := none
deriving Repr, DecidableEq

/-- `createEnrollmentRequestedEvent` from `domain-events.ts`: both
`occurredAt` and `data.requestedAt` are set from the same `const now =
new Date()`. -/
def createEnrollmentRequestedEvent (studentId courseId semester : String)
    (version : Int := 1) (options : RequestOptions := {}) (now : Nat) :
    EnrollmentDomainEvent :=
  { studentId := studentId
    courseId := courseId
    eventType := "EnrollmentRequested"
    occurredAt := now
    version := version
    correlationId := options.correlationId
    causationId := options.causationId
    data := { semester := semester, requestedAt := now, metadata := options.metadata } }

/-- `sortEventsByVersion` from `domain-events.ts`: a stable sort by the
`version` field (`[...events].sort((a, b) => a.version - b.version)`). -/
def sortEventsByVersion (events : List EnrollmentDomainEvent) :
    List EnrollmentDomainEvent :=
  events.insertionSort (fun a b => a.version ≤ b.version)

/-- The indexed loop of `validateEventSequence`: element `i` of the sorted
list must have version `i + 1`; `checkVersionsFrom l k` renders the loop
with the running expected version `k`. -/
def checkVersionsFrom : List EnrollmentDomainEvent → Int → Bool
  | [], _ => true
  | e :: rest, k => e.version == k && checkVersionsFrom rest (k + 1)

/-- `validateEventSequence` from `domain-events.ts`: vacuously true on the
empty list; otherwise versions of the sorted list must be `1, 2, …` and the
first sorted event must be the creation kind. -/
def validateEventSequence (events : List EnrollmentDomainEvent) : Bool :=
  if events.isEmpty then true
  else
    let sorted := sortEventsByVersion events
    checkVersionsFrom sorted 1 &&
      (sorted.head?.map (·.eventType) == some "EnrollmentRequested")

/-- `RequestedEnrollment` from `shared/types/enrollment-types`: the identity
triple, the `'requested'` status literal, the request instant and the
version. -/
structure RequestedEnrollment where
  studentId : String
  courseId : String
  semester : String
  status : String
  requestedAt : Nat
  version : Int
deriving Repr, DecidableEq

/-- `StudentIdSchema` / `CourseIdSchema` regex `^[A-Z0-9]{1,20}$`. -/
def wellFormedId (s : String) : Bool :=
  1 ≤ s.length && s.length ≤ 20 && s.toList.all (fun c => c.isUpper || c.isDigit)

/-- `SemesterSchema` regex `^\d{4}-(spring|summer|fall)$`. -/
def wellFormedSemester (s : String) : Bool :=
  let cs := s.toList
  5 ≤ cs.length && (cs.take 4).all Char.isDigit && cs.get? 4 == some '-' &&
    (cs.drop 5 == "spring".toList || cs.drop 5 == "summer".toList ||
      cs.drop 5 == "fall".toList)

/-- Decimal digits of a character list, folded as a number; `none` when the
list does not start with a digit (JS `parseInt` returning `NaN`). -/
def parseDigits (cs : List Char) : Option Nat :=
  let ds := cs.takeWhile Char.isDigit
  if ds.isEmpty then none
  else some (ds.foldl (fun acc c => acc * 10 + (c.toNat - 48)) 0)

/-- JS `parseInt(s)` restricted to base 10: an optional sign followed by
leading digits, `none` for `NaN`.  (Leading-whitespace skipping is omitted:
no call site can produce leading whitespace.) -/
def parseIntJS (s : String) : Option Int :=
  match s.toList with
  | '-' :: rest => (parseDigits rest).map (fun n => -(n : Int))
  | '+' :: rest => (parseDigits rest).map (fun n => (n : Int))
  | cs => (parseDigits cs).map (fun n => (n : Int))

/-- `semester.split('-')[0] || ''`: the characters before the first `'-'`. -/
def firstSplitPart (s : String) : String :=
  String.mk (s.toList.takeWhile (fun c => c ≠ '-'))

/-- The validated identity triple produced by `validateInputs`. -/
structure ValidatedInputs where
  studentId : String
  courseId : String
  semester : String
deriving Repr, DecidableEq

/-- `validateInputs` from `enrollment-aggregate.ts`: the three schema
parses combined with `ResultUtils.allTuple`, which surfaces the first
failure in tuple order (studentId, courseId, semester). -/
def validateInputs (studentId courseId semester : String) (now : Nat) :
    Result ValidatedInputs EnrollmentError :=
  if wellFormedId studentId then
    if wellFormedId courseId then
      if wellFormedSemester semester then
        .Ok { studentId := studentId, courseId := courseId, semester := semester }
      else
        .Err (createValidationError
          ("Invalid semester format: " ++ semester ++
            ". Expected format: YYYY-(spring|summer|fall)")
          "INVALID_SEMESTER" now (some "semester") (some semester))
    else
      .Err (createValidationError ("Invalid course ID format: " ++ courseId)
        "INVALID_COURSE_ID" now (some "courseId") (some courseId))
  else
    .Err (createValidationError ("Invalid student ID format: " ++ studentId)
      "INVALID_STUDENT_ID" now (some "studentId") (some studentId))

/-- `applyBusinessRules` from `enrollment-aggregate.ts`: the semester year
parsed from the first `'-'`-separated part must not be `NaN` and must lie
in `[currentYear - 1, currentYear + 1]`; `currentYear` is
`new Date().getFullYear()` at call time, passed here as a parameter. -/
def applyBusinessRules (currentYear : Int) (semester : String) (now : Nat) :
    Result Unit EnrollmentError :=
  let semesterYear := parseIntJS (firstSplitPart semester)
  match semesterYear with
  | some y =>
      if currentYear - 1 ≤ y ∧ y ≤ currentYear + 1 then .Ok ()
      else
        .Err (createBusinessRuleError "INVALID_SEMESTER_RANGE"
          ("Cannot enroll for semester " ++ semester ++
            ". Only current and adjacent years are allowed.")
          "SEMESTER_OUT_OF_RANGE" now)
  | none =>
      .Err (createBusinessRuleError "INVALID_SEMESTER_RANGE"
        ("Cannot enroll for semester " ++ semester ++
          ". Only current and adjacent years are allowed.")
        "SEMESTER_OUT_OF_RANGE" now)

/-- `createRequestedEnrollment` from `enrollment-aggregate.ts`. -/
def createRequestedEnrollment (studentId courseId semester : String) (now : Nat) :
    RequestedEnrollment :=
  { studentId := studentId
    courseId := courseId
    semester := semester
    status := "requested"
    requestedAt := now
    version := 1 }

/-- The success payload of `requestEnrollment`
(`{ ...enrollment, domainEvent }`). -/
structure RequestedWithEvent where
  enrollment : RequestedEnrollment
  domainEvent : EnrollmentDomainEvent
deriving Repr, DecidableEq

/-- `requestEnrollment` from `enrollment-aggregate.ts`: validate inputs,
apply business rules, then build the `version = 1` state and its matching
`EnrollmentRequested` event in the same call. -/
def requestEnrollment (studentId courseId semester : String)
    (options : RequestOptions := {}) (currentYear : Int) (now : Nat) :
    Result RequestedWithEvent EnrollmentError :=
  (validateInputs studentId courseId semester now).flatMap fun v =>
    (((applyBusinessRules currentYear v.semester now).map fun _ => v).flatMap fun v =>
      let enrollment := createRequestedEnrollment v.studentId v.courseId v.semester now
      let domainEvent := createEnrollmentRequestedEvent v.studentId v.courseId
        v.semester enrollment.version options now
      .Ok { enrollment := enrollment, domainEvent := domainEvent })

/-- `reconstructEnrollmentFromEvents` from `enrollment-aggregate.ts`:
`Ok none` for the empty list; `INVALID_EVENT_SEQUENCE` when
`validateEventSequence` rejects; otherwise the state is rebuilt from the
first sorted event (the source applies no further events). -/
def reconstructEnrollmentFromEvents (now : Nat)
    (events : List EnrollmentDomainEvent) :
    Result (Option RequestedEnrollment) EnrollmentError :=
  (if events.length = 0 then (.Ok none : Result (Option (List EnrollmentDomainEvent)) EnrollmentError)
   else if validateEventSequence events then .Ok (some events)
   else .Err (createValidationError "Invalid event sequence"
     "INVALID_EVENT_SEQUENCE" now)).flatMap fun validatedEvents =>
    match validatedEvents with
    | none => .Ok none
    | some evs =>
      let sortedEvents := sortEventsByVersion evs
      match sortedEvents.head? with
      | none => .Err (createValidationError "No events to reconstruct from" "NO_EVENTS" now)
      | some firstEvent =>
        if firstEvent.eventType = "EnrollmentRequested" then
          .Ok (some
            { studentId := firstEvent.studentId
              courseId := firstEvent.courseId
              semester := firstEvent.data.semester
              status := "requested"
              requestedAt := firstEvent.data.requestedAt
              version := firstEvent.version })
        else
          .Err (createValidationError "First event must be EnrollmentRequested"
            "INVALID_FIRST_EVENT" now)

/-- `StoredEvent` from `in-memory-store.ts`. -/
structure StoredEvent where
  streamId : String
  version : Int
  event : EnrollmentDomainEvent
  timestamp : Nat
deriving Repr, DecidableEq

/-- The `events: Map<string, StoredEvent[]>` of `InMemoryEventStore`
(`this.events.get(streamId) || []` for an absent key).  The snapshot and
metadata maps are separate fields of the class that never read or write
`this.events` and are not modelled. -/
def EventStoreState : Type := String → List StoredEvent

/-- The store holding no streams. -/
def emptyStore : EventStoreState := fun _ => []

/-- `Math.max(...)` over a version list, `0` guarded by the caller for the
empty case. -/
def maxVersions : List Int → Int
  | [] => 0
  | v :: vs => vs.foldl max v

/-- `getCurrentVersion` from `in-memory-store.ts`: `0` for an empty (or
absent) stream, otherwise the maximum stored version.  (The source wraps
the value in `Ok`; no branch ever produces an error.) -/
def getCurrentVersion (store : EventStoreState) (streamId : String) : Int :=
  let streamEvents := store streamId
  if streamEvents.isEmpty then 0 else maxVersions (streamEvents.map (·.version))

/-- One pending `append` invocation. -/
structure AppendCall where
  streamId : String
  events : List EnrollmentDomainEvent
  expectedVersion : Int
  now : Nat
deriving Repr, DecidableEq

/-- The stored entries the append loop pushes: entry `i` of `events` gets
version `expectedVersion + i + 1`, both on the envelope and overwritten on
the event itself. -/
def storedEntries (streamId : String) (expectedVersion : Int) (now : Nat)
    (events : List EnrollmentDomainEvent) : List StoredEvent :=
  events.enum.map fun p =>
    { streamId := streamId
      version := expectedVersion + p.1 + 1
      event := { p.2 with version := expectedVersion + p.1 + 1 }
      timestamp := now }

/-- Phase 1 of `append`: everything up to (and including) the awaited
`getCurrentVersion` read.  The read executes synchronously when `append`
is invoked; the `await` then suspends the caller. -/
def appendRead (store : EventStoreState) (call : AppendCall) : Int :=
  getCurrentVersion store call.streamId

/-- Phase 2 of `append`: the continuation after the `await`.  It compares
the version captured by phase 1 against `expectedVersion` and, on match,
pushes the new entries; on mismatch it returns a `ConcurrencyError` and
leaves the map untouched. -/
def appendResume (store : EventStoreState) (call : AppendCall)
    (currentVersion : Int) : Result Unit EnrollmentError × EventStoreState :=
  if currentVersion ≠ call.expectedVersion then
    (.Err (createConcurrencyError call.expectedVersion currentVersion
      call.streamId call.now), store)
  else
    let newStream := store call.streamId ++
      storedEntries call.streamId call.expectedVersion call.now call.events
    (.Ok (), fun sid => if sid = call.streamId then newStream else store sid)

/-- `append` from `in-memory-store.ts`, run to completion with no
interleaving: phase 1 immediately followed by phase 2. -/
def append (store : EventStoreState) (streamId : String)
    (events : List EnrollmentDomainEvent) (expectedVersion : Int) (now : Nat) :
    Result Unit EnrollmentError × EventStoreState :=
  let call : AppendCall :=
    { streamId := streamId, events := events, expectedVersion := expectedVersion, now := now }
  appendResume store call (appendRead store call)

/-- A sequence of `append` calls, each run to completion before the next
starts. -/
def runAppends (store : EventStoreState) : List AppendCall → EventStoreState
  | [] => store
  | c :: cs =>
      runAppends (append store c.streamId c.events c.expectedVersion c.now).2 cs

/-- Two `append` calls started concurrently on the Node event loop without
awaiting the first: each call runs synchronously up to its first `await`
(so both version reads happen before either continuation), then the
continuations resume in FIFO order. -/
def racedAppends (store : EventStoreState) (p q : AppendCall) :
    Result Unit EnrollmentError × Result Unit EnrollmentError × EventStoreState :=
  let v1 := appendRead store p
  let v2 := appendRead store q
  let r1 := appendResume store p v1
  let r2 := appendResume r1.2 q v2
  (r1.1, r2.1, r2.2)

/-- `getEvents` from `in-memory-store.ts`: filter by `fromVersion`, sort
ascending by version, project the wrapped events. -/
def getEvents (store : EventStoreState) (streamId : String)
    (fromVersion : Int := 1) : Result (List EnrollmentDomainEvent) EnrollmentError :=
  .Ok ((((store streamId).filter (fun s => fromVersion ≤ s.version)).insertionSort
    (fun a b => a.version ≤ b.version)).map (·.event))

/-- `Date.prototype.toISOString`, modelled as decimal rendering of the
instant. -/
def isoString (t : Nat) : String := toString t

/-- The discriminant tag string of an error (`error.type`). -/
def EnrollmentError.typeTag : EnrollmentError → String
  | .validationError .. => "ValidationError"
  | .businessRuleError .. => "BusinessRuleError"
  | .notFoundError .. => "NotFoundError"
  | .concurrencyError .. => "ConcurrencyError"

/-- `error.field`/`error.rule`/`error.entity` lookups used by
`mapErrorToResponse`. -/
def EnrollmentError.fieldField : EnrollmentError → Option String
  | .validationError _ _ _ f _ => f
  | _ => none

def EnrollmentError.ruleField : EnrollmentError → Option String
  | .businessRuleError r _ _ _ => some r
  | _ => none

def EnrollmentError.entityField : EnrollmentError → Option String
  | .notFoundError e _ _ _ _ => some e
  | _ => none

/-- `ErrorResponse` from the command/query DTOs. -/
structure ErrorResponse where
  type : String
  message : String
  code : String
  timestamp : String
  field : Option String := none
  rule : Option String := none
  entity : Option String := none
  expectedVersion : Option Int := none
  actualVersion : Option Int := none
deriving Repr, DecidableEq

/-- `EnrollmentResponse` from the command/query DTOs (only the fields the
`'requested'` variant populates). -/
structure EnrollmentResponse where
  id : String
  studentId : String
  courseId : String
  semester : String
  status : String
  requestedAt : String
  version : Int
deriving Repr, DecidableEq

/-- `mapErrorToResponse` from the DTO module: a field-by-field projection
of the domain error. -/
def mapErrorToResponse (error : EnrollmentError) : ErrorResponse :=
  { type := error.typeTag
    message := match error with
      | .validationError m _ _ _ _ => m
      | .businessRuleError _ m _ _ => m
      | .notFoundError _ _ m _ _ => m
      | .concurrencyError _ _ _ m _ _ => m
    code := error.code
    timestamp := match error with
      | .validationError _ _ t _ _ => isoString t
      | .businessRuleError _ _ _ t => isoString t
      | .notFoundError _ _ _ _ t => isoString t
      | .concurrencyError _ _ _ _ _ t => isoString t
    field := error.fieldField
    rule := error.ruleField
    entity := error.entityField
    expectedVersion := error.expectedVersionField
    actualVersion := error.actualVersionField }

/-- `mapEnrollmentToResponse` from the DTO module. -/
def mapEnrollmentToResponse (enrollment : RequestedEnrollment) : EnrollmentResponse :=
  { id := enrollment.studentId ++ "-" ++ enrollment.courseId ++ "-" ++ enrollment.semester
    studentId := enrollment.studentId
    courseId := enrollment.courseId
    semester := enrollment.semester
    status := enrollment.status
    requestedAt := isoString enrollment.requestedAt
    version := enrollment.version }

/-- `parseIdentifiers` from the DTO module: the three schema parses with
their own error codes, checked in order. -/
def parseIdentifiers (studentId courseId semester : String) (now : Nat) :
    Result ValidatedInputs EnrollmentError :=
  if ¬ wellFormedId studentId then
    .Err (createValidationError ("Invalid student ID format: " ++ studentId)
      "INVALID_STUDENT_ID" now (some "studentId") (some studentId))
  else if ¬ wellFormedId courseId then
    .Err (createValidationError ("Invalid course ID format: " ++ courseId)
      "INVALID_COURSE_ID" now (some "courseId") (some courseId))
  else if ¬ wellFormedSemester semester then
    .Err (createValidationError ("Invalid semester format: " ++ semester)
      "INVALID_SEMESTER" now (some "semester") (some semester))
  else
    .Ok { studentId := studentId, courseId := courseId, semester := semester }

/-- `config.businessRules.enrollment`: the two knobs the handler reads. -/
structure HandlerConfig where
  allowDuplicateEnrollment : Bool
  maxCoursesPerSemester : Int
deriving Repr, DecidableEq

/-- `getCapacity` payload (`{ max, current }`). -/
structure CourseCapacity where
  max : Int
  current : Int
deriving Repr, DecidableEq

/-- The results the handler's injected collaborators return during one
`handle` invocation (the repositories, publisher and notification service
behind the constructor ports). -/
structure CollabEnv where
  studentExists : Result Bool EnrollmentError
  studentStatus : Result String EnrollmentError
  courseExists : Result Bool EnrollmentError
  courseOffered : Result Bool EnrollmentError
  capacity : Result CourseCapacity EnrollmentError
  findByIdentity : Result (Option RequestedEnrollment) EnrollmentError
  saveResult : Result Unit EnrollmentError
  publishResult : Result Unit EnrollmentError
  notifyResult : Result Unit EnrollmentError

/-- `RequestEnrollmentCommand`: the raw identity strings plus the optional
traceability metadata. -/
structure RequestEnrollmentCommand where
  studentId : String
  courseId : String
  semester : String
  options : RequestOptions := {}
deriving Repr, DecidableEq

/-- `RequestEnrollmentCommandSchema.safeParse`: the three identifier
strings must be non-empty (`z.string().min(1)`); the optional uuid checks
on `correlationId`/`causationId` are abstracted away (no claim touches
them). -/
def validCommand (cmd : RequestEnrollmentCommand) : Bool :=
  1 ≤ cmd.studentId.length && 1 ≤ cmd.courseId.length && 1 ≤ cmd.semester.length

/-- `checkPrerequisites` from `request-enrollment-command.ts`. -/
def checkPrerequisites (env : CollabEnv) (studentId courseId semester : String)
    (now : Nat) : Result Unit EnrollmentError :=
  (parseIdentifiers studentId courseId semester now).flatMap fun _ =>
  match env.studentExists with
  | .Err e => .Err e
  | .Ok false => .Err (createBusinessRuleError "STUDENT_NOT_FOUND"
      ("Student " ++ studentId ++ " not found") "STUDENT_NOT_FOUND" now)
  | .Ok true =>
  match env.studentStatus with
  | .Err e => .Err e
  | .Ok status =>
  if status ≠ "active" then
    .Err (createBusinessRuleError "STUDENT_NOT_ACTIVE"
      ("Student " ++ studentId ++ " is not active") "STUDENT_NOT_ACTIVE" now)
  else
  match env.courseExists with
  | .Err e => .Err e
  | .Ok false => .Err (createBusinessRuleError "COURSE_NOT_FOUND"
      ("Course " ++ courseId ++ " not found") "COURSE_NOT_FOUND" now)
  | .Ok true =>
  match env.courseOffered with
  | .Err e => .Err e
  | .Ok false => .Err (createBusinessRuleError "COURSE_NOT_OFFERED"
      ("Course " ++ courseId ++ " is not offered in semester " ++ semester)
      "COURSE_NOT_OFFERED" now)
  | .Ok true =>
  match env.capacity with
  | .Err e => .Err e
  | .Ok cap =>
  if cap.max ≤ cap.current then
    .Err (createBusinessRuleError "COURSE_CAPACITY_EXCEEDED"
      ("Course " ++ courseId ++ " has reached maximum capacity")
      "COURSE_CAPACITY_EXCEEDED" now)
  else .Ok ()

/-- `checkForDuplicateEnrollment` from `request-enrollment-command.ts`:
skipped entirely when the config flag allows duplicates, otherwise a
repository lookup whose hit is a `DUPLICATE_ENROLLMENT` error. -/
def checkForDuplicateEnrollment (config : HandlerConfig) (env : CollabEnv)
    (studentId courseId semester : String) (now : Nat) :
    Result Unit EnrollmentError :=
  if config.allowDuplicateEnrollment then .Ok ()
  else
    (parseIdentifiers studentId courseId semester now).flatMap fun _ =>
    match env.findByIdentity with
    | .Err e => .Err e
    | .Ok (some existing) =>
        .Err (createBusinessRuleError "DUPLICATE_ENROLLMENT"
          ("Enrollment already exists for student " ++ studentId ++ ", course " ++
            courseId ++ ", semester " ++ semester ++ " (version " ++
            toString existing.version ++ ")")
          "DUPLICATE_ENROLLMENT" now)
    | .Ok none => .Ok ()

/-- `checkEnrollmentLimit` from `request-enrollment-command.ts`: the
current enrollment count is hard-coded to `0` in the source. -/
def checkEnrollmentLimit (config : HandlerConfig) (studentId semester : String)
    (now : Nat) : Result Unit EnrollmentError :=
  if studentId = "" ∨ semester = "" then
    .Err (createBusinessRuleError "INVALID_INPUT"
      "Student ID and semester are required" "INVALID_INPUT" now)
  else
    let currentEnrollmentCount : Int := 0
    if config.maxCoursesPerSemester ≤ currentEnrollmentCount then
      .Err (createBusinessRuleError "ENROLLMENT_LIMIT_EXCEEDED"
        ("Student " ++ studentId ++ " has reached maximum enrollment limit")
        "ENROLLMENT_LIMIT_EXCEEDED" now)
    else .Ok ()

/-- The observable side-effecting collaborator calls `handle` performs
after its checks, in order. -/
inductive Effect where
  | saved
  | published
  | notified
deriving Repr, DecidableEq

/-- `RequestEnrollmentCommandHandler.handle`: the eight-step pipeline.
Returns the response together with the trace of side-effecting
collaborator invocations.  The results of `eventPublisher.publish` and
`notificationService.notifyEnrollmentRequested` are awaited but never
inspected by the source (steps 6 and 7). -/
def handle (config : HandlerConfig) (env : CollabEnv)
    (cmd : RequestEnrollmentCommand) (currentYear : Int) (now : Nat) :
    Result EnrollmentResponse ErrorResponse × List Effect :=
  if ¬ validCommand cmd then
    (.Err (mapErrorToResponse (createBusinessRuleError "INPUT_VALIDATION"
      "Invalid input format" "INVALID_COMMAND_FORMAT" now)), [])
  else
    match checkPrerequisites env cmd.studentId cmd.courseId cmd.semester now with
    | .Err e => (.Err (mapErrorToResponse e), [])
    | .Ok _ =>
    match checkForDuplicateEnrollment config env cmd.studentId cmd.courseId
        cmd.semester now with
    | .Err e => (.Err (mapErrorToResponse e), [])
    | .Ok _ =>
    match checkEnrollmentLimit config cmd.studentId cmd.semester now with
    | .Err e => (.Err (mapErrorToResponse e), [])
    | .Ok _ =>
    match requestEnrollment cmd.studentId cmd.courseId cmd.semester cmd.options
        currentYear now with
    | .Err e => (.Err (mapErrorToResponse e), [])
    | .Ok r =>
    match env.saveResult with
    | .Err e => (.Err (mapErrorToResponse e), [.saved])
    | .Ok _ =>
        (.Ok (mapEnrollmentToResponse r.enrollment), [.saved, .published, .notified])

/-- The state a creation event describes (shared by the source's
reconstruction branch and the spec-modelled `applyEvent`). -/
def stateOfCreationEvent (e : EnrollmentDomainEvent) : RequestedEnrollment :=
  { studentId := e.studentId
    courseId := e.courseId
    semester := e.data.semester
    status := "requested"
    requestedAt := e.data.requestedAt
    version := e.version }

/-- Modelled from the spec: `applyEvent(currentStateOrNone, event)` (§4.1),
which no file under `src/` defines.  A creation event applied to no state
yields the `Requested` state provided its version is `1`
(`INVALID_EVENT_SEQUENCE` otherwise); the creation kind applied to an
existing state is not an edge of the §3 transition graph, so it is an
`INVALID_STATE_TRANSITION`; so is any unknown event kind. -/
def applyEventSpec (now : Nat) (current : Option RequestedEnrollment)
    (event : EnrollmentDomainEvent) : Result RequestedEnrollment EnrollmentError :=
  match current with
  | none =>
      if event.eventType = "EnrollmentRequested" then
        if event.version = 1 then .Ok (stateOfCreationEvent event)
        else .Err (createValidationError "Event version must be 1 for creation"
          "INVALID_EVENT_SEQUENCE" now)
      else .Err (createValidationError "Not a creation event"
        "INVALID_STATE_TRANSITION" now)
  | some _ =>
      .Err (createValidationError "No transition accepts this event kind"
        "INVALID_STATE_TRANSITION" now)

/-- Modelled from the spec: `reconstruct` as §4.1 words it — sort by
version, verify contiguity from 1 and that the first event is the creation
kind, then fold `applyEvent` across the remainder, short-circuiting on the
first error.  Stated only to compare against the source's
`reconstructEnrollmentFromEvents`. -/
def reconstructSpec (now : Nat) (events : List EnrollmentDomainEvent) :
    Result (Option RequestedEnrollment) EnrollmentError :=
  if events.isEmpty then .Ok none
  else
    let sorted := sortEventsByVersion events
    if ¬ checkVersionsFrom sorted 1 then
      .Err (createValidationError "Invalid event sequence" "INVALID_EVENT_SEQUENCE" now)
    else
      match sorted with
      | [] => .Ok none
      | first :: rest =>
        if first.eventType ≠ "EnrollmentRequested" then
          .Err (createValidationError "Invalid event sequence" "INVALID_EVENT_SEQUENCE" now)
        else
          (rest.foldl (fun acc e => acc.flatMap fun st => applyEventSpec now (some st) e)
            (applyEventSpec now none first)).map some

/-- Concrete creation event (version 1) used by counterexamples. -/
def sampleEventOne : EnrollmentDomainEvent :=
  createEnrollmentRequestedEvent "S1" "C1" "2025-spring" 1 {} 0

/-- A second creation-kind event carrying version 2, as the store produces
for a second accepted command on the same stream. -/
def sampleEventTwo : EnrollmentDomainEvent :=
  createEnrollmentRequestedEvent "S1" "C1" "2025-spring" 2 {} 5

/-- A creation-kind event carrying version 3 (used for the `[1, 3]` version
gap scenario). -/
def gapEventThree : EnrollmentDomainEvent :=
  createEnrollmentRequestedEvent "S1" "C1" "2025-spring" 3 {} 5

/-- A store whose stream `"s"` holds three contiguously versioned events. -/
def threeEventStream : EventStoreState := fun sid =>
  if sid = "s" then
    [{ streamId := "s", version := 1, event := sampleEventOne, timestamp := 0 },
     { streamId := "s", version := 2, event := sampleEventTwo, timestamp := 0 },
     { streamId := "s", version := 3,
       event := createEnrollmentRequestedEvent "S1" "C1" "2025-spring" 3 {} 9,
       timestamp := 9 }]
  else []

/-- An `append` of one event to stream `"s"` expecting version 0. -/
def racedCall : AppendCall :=
  { streamId := "s", events := [sampleEventOne], expectedVersion := 0, now := 0 }

/-- Two sequential appends building stream `"s"` up to version 2. -/
def demoCalls : List AppendCall :=
  [{ streamId := "s", events := [sampleEventOne], expectedVersion := 0, now := 0 },
   { streamId := "s", events := [sampleEventTwo], expectedVersion := 1, now := 1 }]

/-- A configuration with duplicates disallowed and room for ten courses. -/
def happyConfig : HandlerConfig :=
  { allowDuplicateEnrollment := false, maxCoursesPerSemester := 10 }

/-- Collaborators that let every check pass and every effect succeed. -/
def baseEnv : CollabEnv :=
  { studentExists := .Ok true
    studentStatus := .Ok "active"
    courseExists := .Ok true
    courseOffered := .Ok true
    capacity := .Ok { max := 30, current := 0 }
    findByIdentity := .Ok none
    saveResult := .Ok ()
    publishResult := .Ok ()
    notifyResult := .Ok () }

/-- `baseEnv` with an already-stored state for the command's identity. -/
def duplicateEnv : CollabEnv :=
  { baseEnv with
    findByIdentity := .Ok (some (createRequestedEnrollment "S1" "C1" "2025-spring" 0)) }

/-- A well-formed request command. -/
def sampleCommand : RequestEnrollmentCommand :=
  { studentId := "S1", courseId := "C1", semester := "2025-spring" }

/-- Stored-event lists whose versions run `k, k + 1, …` — the per-stream
shape the contiguity invariant demands from version `k` on. -/
def VersionsFrom : Int → List StoredEvent → Prop
  | _, [] => True
  | k, e :: rest => e.version = k ∧ VersionsFrom (k + 1) rest

/-- The version loop of `validateEventSequence` accepts exactly the lists
whose versions are `k, k + 1, …` in order. -/
theorem checkVersionsFrom_iff (l : List EnrollmentDomainEvent) (k : Int) :
    checkVersionsFrom l k = true ↔
      l.map (·.version) = (List.range l.length).map (fun i : Nat => k + (i : Int)) := by
  induction l generalizing k with
  | nil => simp [checkVersionsFrom]
  | cons e rest ih =>
    have hmaps : (List.range rest.length).map ((fun i : Nat => k + (i : Int)) ∘ Nat.succ) =
        (List.range rest.length).map (fun i : Nat => (k + 1) + (i : Int)) := by
      refine List.map_congr_left fun i _ => ?_
      simp only [Function.comp]
      push_cast
      ring
    simp only [checkVersionsFrom, Bool.and_eq_true, beq_iff_eq, ih,
      List.map_cons, List.length_cons, List.range_succ_eq_map, List.map_map, hmaps]
    constructor
    · rintro ⟨h1, h2⟩
      rw [h1, h2]
      simp
    · intro h
      rcases List.cons_eq_cons.mp h with ⟨h1, h2⟩
      exact ⟨by simpa using h1, by rw [h2]⟩

theorem sortEventsByVersion_length (events : List EnrollmentDomainEvent) :
    (sortEventsByVersion events).length = events.length := by
  simp [sortEventsByVersion, List.length_insertionSort]

/-- A malformed sorted-version line or a non-creation first event falsifies
`validateEventSequence`. -/
theorem validateEventSequence_false_of_malformed (events : List EnrollmentDomainEvent)
    (hne : events ≠ [])
    (hmal : (sortEventsByVersion events).map (·.version) ≠
        (List.range events.length).map (fun i : Nat => (i : Int) + 1) ∨
      (sortEventsByVersion events).head?.map (·.eventType) ≠ some "EnrollmentRequested") :
    validateEventSequence events = false := by
  rw [validateEventSequence]
  rw [if_neg (by simpa using hne)]
  rcases hmal with hmal | hmal
  · have hfalse : checkVersionsFrom (sortEventsByVersion events) 1 = false := by
      rw [← Bool.not_eq_true, checkVersionsFrom_iff, sortEventsByVersion_length]
      intro hcontra
      exact hmal (hcontra.trans (List.map_congr_left fun i _ => by ring))
    simp [hfalse]
  · have hfalse : ((sortEventsByVersion events).head?.map (·.eventType) ==
        some "EnrollmentRequested") = false := by
      simpa using hmal
    simp [hfalse]

theorem events_length_ne_zero {events : List EnrollmentDomainEvent}
    (hne : events ≠ []) : ¬ events.length = 0 :=
  fun h => hne (List.length_eq_zero.mp h)

/-- Reconstruction of a non-empty list that fails validation is exactly the
`INVALID_EVENT_SEQUENCE` error. -/
theorem reconstruct_invalid_eq (now : Nat) (events : List EnrollmentDomainEvent)
    (hne : events ≠ []) (hv : validateEventSequence events = false) :
    reconstructEnrollmentFromEvents now events =
      .Err (createValidationError "Invalid event sequence" "INVALID_EVENT_SEQUENCE" now) := by
  rw [reconstructEnrollmentFromEvents, if_neg (events_length_ne_zero hne),
    if_neg (by simp [hv])]
  rfl

theorem head_creation_of_validate (events : List EnrollmentDomainEvent)
    (hne : events ≠ []) (hv : validateEventSequence events = true) :
    (sortEventsByVersion events).head?.map (·.eventType) = some "EnrollmentRequested" := by
  rw [validateEventSequence, if_neg (by simpa using hne)] at hv
  simp only [Bool.and_eq_true] at hv
  simpa using hv.2

theorem sortEventsByVersion_ne_nil {events : List EnrollmentDomainEvent}
    (hne : events ≠ []) : sortEventsByVersion events ≠ [] := by
  intro h
  have := sortEventsByVersion_length events
  rw [h] at this
  exact hne (List.length_eq_zero.mp this.symm)

/-- Reconstruction of a list passing validation returns the state of the
first sorted event. -/
theorem reconstruct_valid_eq (now : Nat) (events : List EnrollmentDomainEvent)
    (first : EnrollmentDomainEvent) (rest : List EnrollmentDomainEvent)
    (hv : validateEventSequence events = true)
    (hs : sortEventsByVersion events = first :: rest) :
    reconstructEnrollmentFromEvents now events = .Ok (some (stateOfCreationEvent first)) := by
  have hne : events ≠ [] := by
    intro h
    subst h
    simp [sortEventsByVersion, List.insertionSort] at hs
  have hfirst : first.eventType = "EnrollmentRequested" := by
    have := head_creation_of_validate events hne hv
    rw [hs] at this
    simpa using this
  rw [reconstructEnrollmentFromEvents, if_neg (events_length_ne_zero hne), if_pos hv]
  simp only [Result.flatMap, hs, List.head?_cons]
  rw [if_pos hfirst]
  rfl

theorem versionsFrom_get (l : List StoredEvent) (k : Int) (hv : VersionsFrom k l) :
    ∀ i (h : i < l.length), (l.get ⟨i, h⟩).version = k + i := by
  induction l generalizing k with
  | nil => intro i h; simp at h
  | cons e rest ih =>
    obtain ⟨he, hrest⟩ := hv
    intro i h
    cases i with
    | zero => simpa using he
    | succ i =>
      have := ih (k + 1) hrest i (by simpa using h)
      simp only [List.get] at this ⊢
      rw [this]
      push_cast
      ring

theorem foldl_max_versionsFrom (l : List StoredEvent) :
    ∀ (k acc : Int), VersionsFrom k l → l ≠ [] →
    (l.map (·.version)).foldl max acc = max acc (k + l.length - 1) := by
  induction l with
  | nil => intro k acc _ hne; exact absurd rfl hne
  | cons e rest ih =>
    intro k acc hv _
    obtain ⟨he, hrest⟩ := hv
    simp only [List.map_cons, List.foldl_cons, he]
    cases hr : rest with
    | nil =>
      subst hr
      simp only [List.map_nil, List.foldl_nil, List.length_cons, List.length_nil]
      push_cast
      omega
    | cons f fs =>
      rw [← hr]
      have hne2 : rest ≠ [] := by rw [hr]; simp
      rw [ih (k + 1) (max acc k) hrest hne2]
      simp only [List.length_cons]
      push_cast
      omega

/-- Under the contiguity invariant the stored max version is exactly the
stream length — `getCurrentVersion` and event count agree. -/
theorem getCurrentVersion_eq_length (store : EventStoreState) (sid : String)
    (hv : VersionsFrom 1 (store sid)) :
    getCurrentVersion store sid = (store sid).length := by
  rw [getCurrentVersion]
  cases hl : store sid with
  | nil => simp
  | cons e rest =>
    rw [hl] at hv
    obtain ⟨he, hrest⟩ := hv
    simp only [List.isEmpty_cons, Bool.false_eq_true, if_false]
    rw [maxVersions.eq_def]
    simp only [List.map_cons]
    cases hr : rest with
    | nil =>
      subst hr
      simp [he]
    | cons f fs =>
      rw [← hr]
      have hne2 : rest ≠ [] := by rw [hr]; simp
      rw [foldl_max_versionsFrom rest (1 + 1) e.version hrest hne2, he]
      simp only [List.length_cons]
      push_cast
      omega

theorem versionsFrom_append_list (l1 : List StoredEvent) :
    ∀ (l2 : List StoredEvent) (k : Int), VersionsFrom k l1 →
    VersionsFrom (k + l1.length) l2 → VersionsFrom k (l1 ++ l2) := by
  induction l1 with
  | nil => intro l2 k _ h2; simpa using h2
  | cons e rest ih =>
    intro l2 k h1 h2
    obtain ⟨he, hrest⟩ := h1
    refine ⟨he, ih l2 (k + 1) hrest ?_⟩
    have : k + 1 + (rest.length : Int) = k + ((e :: rest).length : Int) := by
      simp only [List.length_cons]
      push_cast
      ring
    rw [this]
    exact h2

theorem versionsFrom_storedEntriesFrom (s : String) (n : Int) (now : Nat)
    (es : List EnrollmentDomainEvent) :
    ∀ j : Nat, VersionsFrom (n + j + 1) ((es.enumFrom j).map fun p =>
      { streamId := s, version := n + p.1 + 1,
        event := { p.2 with version := n + p.1 + 1 }, timestamp := now }) := by
  induction es with
  | nil => intro j; simp [VersionsFrom]
  | cons e rest ih =>
    intro j
    simp only [List.enumFrom_cons, List.map_cons]
    refine ⟨rfl, ?_⟩
    have harith : n + ((j + 1 : Nat) : Int) + 1 = n + (j : Int) + 1 + 1 := by
      push_cast
      ring
    exact harith ▸ ih (j + 1)

theorem versionsFrom_storedEntries (s : String) (n : Int) (now : Nat)
    (es : List EnrollmentDomainEvent) :
    VersionsFrom (n + 1) (storedEntries s n now es) := by
  have := versionsFrom_storedEntriesFrom s n now es 0
  simpa [storedEntries, List.enum] using this

/-- One completed `append` keeps every stream contiguously versioned. -/
theorem storeContiguous_append (store : EventStoreState)
    (h : ∀ sid, VersionsFrom 1 (store sid)) (s : String)
    (es : List EnrollmentDomainEvent) (n : Int) (now : Nat) :
    ∀ sid, VersionsFrom 1 ((append store s es n now).2 sid) := by
  intro sid
  rw [append, appendResume]
  by_cases hc : appendRead store
      { streamId := s, events := es, expectedVersion := n, now := now } ≠ n
  · rw [if_pos hc]
    exact h sid
  · push_neg at hc
    rw [if_neg (by simpa using hc)]
    simp only
    by_cases hsid : sid = s
    · subst hsid
      rw [if_pos rfl]
      refine versionsFrom_append_list (store sid) _ 1 (h sid) ?_
      have hn : n = ((store sid).length : Int) := by
        rw [← hc]
        exact getCurrentVersion_eq_length store sid (h sid)
      have hv := versionsFrom_storedEntries sid n now es
      have harith : n + 1 = 1 + ((store sid).length : Int) := by
        rw [hn]; ring
      exact harith ▸ hv
    · rw [if_neg hsid]
      exact h sid

theorem storeContiguous_runAppends (calls : List AppendCall) :
    ∀ store : EventStoreState, (∀ sid, VersionsFrom 1 (store sid)) →
    ∀ sid, VersionsFrom 1 ((runAppends store calls) sid) := by
  induction calls with
  | nil => intro store h; exact h
  | cons c cs ih =>
    intro store h
    exact ih _ (storeContiguous_append store h c.streamId c.events c.expectedVersion c.now)

theorem storedEntries_map_version (s : String) (n : Int) (now : Nat)
    (es : List EnrollmentDomainEvent) :
    (storedEntries s n now es).map (·.version) =
      (List.range es.length).map (fun i : Nat => n + (i : Int) + 1) := by
  rw [storedEntries, List.map_map]
  have : ((fun x : StoredEvent => x.version) ∘ fun p : Nat × EnrollmentDomainEvent =>
      ({ streamId := s, version := n + p.1 + 1,
         event := { p.2 with version := n + p.1 + 1 }, timestamp := now } : StoredEvent)) =
      (fun i : Nat => n + (i : Int) + 1) ∘ Prod.fst := by
    funext p
    rfl
  rw [this, ← List.map_map, List.enum_map_fst]

/-- A successful `requestEnrollment` returns exactly the freshly created
state paired with its matching creation event. -/
theorem requestEnrollment_ok_shape (sid cid sem : String) (opts : RequestOptions)
    (year : Int) (now : Nat) (r : RequestedWithEvent)
    (h : requestEnrollment sid cid sem opts year now = .Ok r) :
    r = { enrollment := createRequestedEnrollment sid cid sem now,
          domainEvent := createEnrollmentRequestedEvent sid cid sem 1 opts now } := by
  rw [requestEnrollment] at h
  cases h1 : validateInputs sid cid sem now with
  | Err e => rw [h1] at h; exact absurd h (by simp [Result.flatMap])
  | Ok v =>
    rw [h1] at h
    simp only [Result.flatMap] at h
    cases h2 : applyBusinessRules year v.semester now with
    | Err e => rw [h2] at h; exact absurd h (by simp [Result.map, Result.flatMap])
    | Ok u =>
      rw [h2] at h
      simp only [Result.map, Result.flatMap, Result.Ok.injEq] at h
      have hv : ({ studentId := sid, courseId := cid, semester := sem } :
          ValidatedInputs) = v := by
        rw [validateInputs] at h1
        split_ifs at h1
        simpa using h1
      rw [← hv] at h
      exact h.symm

theorem digit_ne_dash {ch : Char} (h : ch.isDigit = true) : ch ≠ '-' := by
  intro heq
  rw [heq] at h
  exact absurd h (by decide)

theorem digit_ne_plus {ch : Char} (h : ch.isDigit = true) : ch ≠ '+' := by
  intro heq
  rw [heq] at h
  exact absurd h (by decide)

/-- A well-formed semester string parses to a year: its first
`'-'`-separated part is the four leading digits. -/
theorem semesterYear_of_wellFormed (sem : String)
    (h : wellFormedSemester sem = true) :
    ∃ y : Int, parseIntJS (firstSplitPart sem) = some y := by
  rw [wellFormedSemester] at h
  simp only [Bool.and_eq_true, decide_eq_true_eq, List.all_eq_true, beq_iff_eq] at h
  obtain ⟨⟨⟨hlen, hdig⟩, hdash⟩, _⟩ := h
  match hcs : sem.toList with
  | [] => rw [hcs] at hlen; simp at hlen
  | [a] => rw [hcs] at hlen; simp at hlen
  | [a, b] => rw [hcs] at hlen; simp at hlen
  | [a, b, c] => rw [hcs] at hlen; simp at hlen
  | [a, b, c, d] => rw [hcs] at hlen; simp at hlen
  | a :: b :: c :: d :: e :: rest =>
    rw [hcs] at hdig hdash
    have ha : a.isDigit = true := hdig a (by simp [List.take])
    have hb : b.isDigit = true := hdig b (by simp [List.take])
    have hc : c.isDigit = true := hdig c (by simp [List.take])
    have hd : d.isDigit = true := hdig d (by simp [List.take])
    have he : e = '-' := by simpa [List.get?] using hdash
    have hpart : firstSplitPart sem = String.mk [a, b, c, d] := by
      rw [firstSplitPart, hcs, he]
      simp [List.takeWhile_cons, digit_ne_dash ha, digit_ne_dash hb,
        digit_ne_dash hc, digit_ne_dash hd]
    rw [hpart, parseIntJS]
    split
    · rename_i heq
      rw [show (String.mk [a, b, c, d]).toList = [a, b, c, d] from rfl] at heq
      exact absurd (List.cons_eq_cons.mp heq).1 (digit_ne_dash ha)
    · rename_i heq
      rw [show (String.mk [a, b, c, d]).toList = [a, b, c, d] from rfl] at heq
      exact absurd (List.cons_eq_cons.mp heq).1 (digit_ne_plus ha)
    · rename_i cs heq hne1 hne2
      rw [parseDigits]
      rw [show (String.mk [a, b, c, d]).toList = [a, b, c, d] from rfl]
      simp [List.takeWhile_cons, ha, hb, hc, hd]

theorem parseIdentifiers_ok (sid cid sem : String) (now : Nat)
    (hsid : wellFormedId sid = true) (hcid : wellFormedId cid = true)
    (hsem : wellFormedSemester sem = true) :
    parseIdentifiers sid cid sem now =
      .Ok { studentId := sid, courseId := cid, semester := sem } := by
  rw [parseIdentifiers, if_neg (by simp [hsid]), if_neg (by simp [hcid]),
    if_neg (by simp [hsem])]

/-- All prerequisite checks pass when the collaborators report an active
student, an offered course and spare capacity. -/
theorem checkPrerequisites_ok (env : CollabEnv) (sid cid sem : String) (now : Nat)
    (cap : CourseCapacity)
    (hsid : wellFormedId sid = true) (hcid : wellFormedId cid = true)
    (hsem : wellFormedSemester sem = true)
    (hse : env.studentExists = .Ok true) (hss : env.studentStatus = .Ok "active")
    (hce : env.courseExists = .Ok true) (hco : env.courseOffered = .Ok true)
    (hcap : env.capacity = .Ok cap) (hlt : cap.current < cap.max) :
    checkPrerequisites env sid cid sem now = .Ok () := by
  rw [checkPrerequisites, parseIdentifiers_ok sid cid sem now hsid hcid hsem]
  simp only [Result.flatMap, hse, hss, hce, hco, hcap]
  rw [if_neg (by simp)]
  rw [if_neg (not_le.mpr hlt)]

/-- The duplicate check fails with `DUPLICATE_ENROLLMENT` on a repository
hit when duplicates are not allowed. -/
theorem checkForDuplicateEnrollment_hit (config : HandlerConfig) (env : CollabEnv)
    (sid cid sem : String) (now : Nat) (existing : RequestedEnrollment)
    (hflag : config.allowDuplicateEnrollment = false)
    (hsid : wellFormedId sid = true) (hcid : wellFormedId cid = true)
    (hsem : wellFormedSemester sem = true)
    (hfind : env.findByIdentity = .Ok (some existing)) :
    checkForDuplicateEnrollment config env sid cid sem now =
      .Err (createBusinessRuleError "DUPLICATE_ENROLLMENT"
        ("Enrollment already exists for student " ++ sid ++ ", course " ++
          cid ++ ", semester " ++ sem ++ " (version " ++
          toString existing.version ++ ")")
        "DUPLICATE_ENROLLMENT" now) := by
  rw [checkForDuplicateEnrollment, if_neg (by simp [hflag]),
    parseIdentifiers_ok sid cid sem now hsid hcid hsem]
  simp only [Result.flatMap, hfind]

theorem checkForDuplicateEnrollment_miss (config : HandlerConfig) (env : CollabEnv)
    (sid cid sem : String) (now : Nat)
    (hflag : config.allowDuplicateEnrollment = false)
    (hsid : wellFormedId sid = true) (hcid : wellFormedId cid = true)
    (hsem : wellFormedSemester sem = true)
    (hfind : env.findByIdentity = .Ok none) :
    checkForDuplicateEnrollment config env sid cid sem now = .Ok () := by
  rw [checkForDuplicateEnrollment, if_neg (by simp [hflag]),
    parseIdentifiers_ok sid cid sem now hsid hcid hsem]
  simp only [Result.flatMap, hfind]

theorem wellFormedId_ne_empty {s : String} (h : wellFormedId s = true) : s ≠ "" := by
  intro heq
  rw [heq] at h
  exact absurd h (by decide)

theorem wellFormedSemester_ne_empty {s : String} (h : wellFormedSemester s = true) :
    s ≠ "" := by
  intro heq
  rw [heq] at h
  exact absurd h (by decide)

/-- Claim C1: when the store's current max version for stream `s` (0 when
`s` holds no events) differs from `expectedVersion = n`, `append` returns a
`ConcurrencyError` whose `expectedVersion` field is `n` and whose
`actualVersion` field is that current max version, and the stored event
sequence of every stream is exactly what it was before the call. -/
theorem append_version_mismatch_rejects (store : EventStoreState) (s : String)
    (es : List EnrollmentDomainEvent) (n : Int) (now : Nat)
    (h : getCurrentVersion store s ≠ n) :
    (append store s es n now).1 =
      .Err (createConcurrencyError n (getCurrentVersion store s) s now) ∧
    (createConcurrencyError n (getCurrentVersion store s) s now).expectedVersionField
      = some n ∧
    (createConcurrencyError n (getCurrentVersion store s) s now).actualVersionField
      = some (getCurrentVersion store s) ∧
    ∀ sid, (append store s es n now).2 sid = store sid := by
  have hmain : append store s es n now =
      (.Err (createConcurrencyError n (getCurrentVersion store s) s now), store) := by
    unfold append appendResume appendRead
    simp only [ne_eq]
    rw [if_pos]
    exact h
  refine ⟨by rw [hmain], rfl, rfl, fun sid => by rw [hmain]⟩

/-- Claim C1 witness: appending with `expectedVersion = 1` against a stream
of current version 3 yields `ConcurrencyError` with expected 1, actual 3,
and an unchanged store (the spec's scenario). -/
theorem append_version_mismatch_rejects_witness :
    getCurrentVersion threeEventStream "s" ≠ 1 ∧
    ((append threeEventStream "s" [sampleEventOne] 1 4).1 =
      .Err (createConcurrencyError 1 (getCurrentVersion threeEventStream "s") "s" 4) ∧
    (createConcurrencyError 1 (getCurrentVersion threeEventStream "s") "s" 4).expectedVersionField
      = some 1 ∧
    (createConcurrencyError 1 (getCurrentVersion threeEventStream "s") "s" 4).actualVersionField
      = some (getCurrentVersion threeEventStream "s") ∧
    ∀ sid, (append threeEventStream "s" [sampleEventOne] 1 4).2 sid = threeEventStream sid) :=
  ⟨by decide, append_version_mismatch_rejects threeEventStream "s" [sampleEventOne] 1 4
    (by decide)⟩

/-- Claim C2: a round trip — when `requestEnrollment` succeeds with state
`st` and event `ev`, appending `ev` to the identity's (empty) stream and
reconstructing from the events read back yields exactly `st`: same
identity, status `"requested"`, same `requestedAt`, version 1. -/
theorem requestEnrollment_roundtrip (sid cid sem streamId : String)
    (opts : RequestOptions) (year : Int) (now now2 now3 : Nat) (r : RequestedWithEvent)
    (h : requestEnrollment sid cid sem opts year now = .Ok r) :
    (append emptyStore streamId [r.domainEvent] 0 now2).1 = .Ok () ∧
    getEvents (append emptyStore streamId [r.domainEvent] 0 now2).2 streamId 1 =
      .Ok [r.domainEvent] ∧
    reconstructEnrollmentFromEvents now3 [r.domainEvent] = .Ok (some r.enrollment) ∧
    r.enrollment.status = "requested" ∧ r.enrollment.version = 1 := by
  have hr := requestEnrollment_ok_shape sid cid sem opts year now r h
  subst hr
  refine ⟨rfl, ?_, rfl, rfl, rfl⟩
  simp [getEvents, append, appendResume, appendRead, getCurrentVersion, emptyStore,
    storedEntries, List.insertionSort, List.orderedInsert, createEnrollmentRequestedEvent]

/-- Claim C2 witness: the round trip at a concrete accepted creation. -/
theorem requestEnrollment_roundtrip_witness :
    requestEnrollment "S1" "C1" "2025-spring" {} 2025 7 = .Ok
      { enrollment := createRequestedEnrollment "S1" "C1" "2025-spring" 7,
        domainEvent := createEnrollmentRequestedEvent "S1" "C1" "2025-spring" 1 {} 7 } ∧
    ((append emptyStore "stream-S1"
        [createEnrollmentRequestedEvent "S1" "C1" "2025-spring" 1 {} 7] 0 8).1 = .Ok () ∧
    getEvents (append emptyStore "stream-S1"
        [createEnrollmentRequestedEvent "S1" "C1" "2025-spring" 1 {} 7] 0 8).2
        "stream-S1" 1 =
      .Ok [createEnrollmentRequestedEvent "S1" "C1" "2025-spring" 1 {} 7] ∧
    reconstructEnrollmentFromEvents 9
        [createEnrollmentRequestedEvent "S1" "C1" "2025-spring" 1 {} 7] =
      .Ok (some (createRequestedEnrollment "S1" "C1" "2025-spring" 7)) ∧
    (createRequestedEnrollment "S1" "C1" "2025-spring" 7).status = "requested" ∧
    (createRequestedEnrollment "S1" "C1" "2025-spring" 7).version = 1) :=
  ⟨by decide,
    requestEnrollment_roundtrip "S1" "C1" "2025-spring" "stream-S1" {} 2025 7 8 9
      { enrollment := createRequestedEnrollment "S1" "C1" "2025-spring" 7,
        domainEvent := createEnrollmentRequestedEvent "S1" "C1" "2025-spring" 1 {} 7 }
      (by decide)⟩

/-- Claim C3 counterexample: the source's reconstruction does not fold a
state-transition function over the events after the first.  On the valid
two-event stream `[v1, v2]` it returns the version-1 state built from the
first event alone, while the spec-modelled fold (`reconstructSpec`)
disagrees — so the claim that reconstruction makes every event contribute
is false at this input. -/
theorem reconstruct_no_fold_cex :
    reconstructEnrollmentFromEvents 0 [sampleEventOne, sampleEventTwo] ≠
      reconstructSpec 0 [sampleEventOne, sampleEventTwo] ∧
    validateEventSequence [sampleEventOne, sampleEventTwo] = true ∧
    reconstructEnrollmentFromEvents 0 [sampleEventOne, sampleEventTwo] =
      .Ok (some (stateOfCreationEvent sampleEventOne)) ∧
    (stateOfCreationEvent sampleEventOne).version = 1 ∧
    sampleEventTwo.version = 2 := by
  decide

/-- Claim C3 (amended): `reconstructEnrollmentFromEvents` returns `Ok none`
for the empty list; a non-empty list failing `validateEventSequence` is an
`INVALID_EVENT_SEQUENCE` error; a non-empty list passing it reconstructs
the state from the first sorted event alone — events after the first are
ignored, no fold is performed. -/
theorem reconstruct_uses_first_event_only (now : Nat)
    (events : List EnrollmentDomainEvent) :
    (events = [] → reconstructEnrollmentFromEvents now events = .Ok none) ∧
    (events ≠ [] → validateEventSequence events = false →
      reconstructEnrollmentFromEvents now events =
        .Err (createValidationError "Invalid event sequence" "INVALID_EVENT_SEQUENCE" now)) ∧
    (∀ first rest, validateEventSequence events = true →
      sortEventsByVersion events = first :: rest →
      reconstructEnrollmentFromEvents now events =
        .Ok (some (stateOfCreationEvent first))) := by
  refine ⟨?_, ?_, ?_⟩
  · rintro rfl
    rfl
  · exact reconstruct_invalid_eq now events
  · exact fun first rest hv hs => reconstruct_valid_eq now events first rest hv hs

/-- Claim C3 witness: the amended behaviour at the empty list and at a
concrete valid two-event stream. -/
theorem reconstruct_uses_first_event_only_witness :
    ([] = ([] : List EnrollmentDomainEvent) →
      reconstructEnrollmentFromEvents 0 [] = .Ok none) ∧
    (sortEventsByVersion [sampleEventOne, sampleEventTwo] =
      sampleEventOne :: [sampleEventTwo] ∧
    reconstructEnrollmentFromEvents 0 [sampleEventOne, sampleEventTwo] =
      .Ok (some (stateOfCreationEvent sampleEventOne))) :=
  ⟨(reconstruct_uses_first_event_only 0 []).1,
    by decide,
    (reconstruct_uses_first_event_only 0 [sampleEventOne, sampleEventTwo]).2.2
      sampleEventOne [sampleEventTwo] (by decide) (by decide)⟩

/-- Claim C4: starting from the empty store, after any sequence of `append`
calls each run to completion, every stream's stored event at 0-based index
`i` has version `i + 1`; and a successful `append(s, es, n)` extends the
stream with the events of `es` in order, versioned `n + 1, n + 2, …`. -/
theorem store_version_contiguity (calls : List AppendCall) :
    (∀ sid i e, ((runAppends emptyStore calls) sid).get? i = some e →
      e.version = (i : Int) + 1) ∧
    (∀ (store : EventStoreState) s es n now,
      (append store s es n now).1 = .Ok () →
      (append store s es n now).2 s = store s ++ storedEntries s n now es ∧
      (storedEntries s n now es).map (·.version) =
        (List.range es.length).map (fun i : Nat => n + (i : Int) + 1)) := by
  constructor
  · intro sid i e hget
    have hinv := storeContiguous_runAppends calls emptyStore (fun _ => trivial) sid
    obtain ⟨hlt, hval⟩ := List.get?_eq_some.mp hget
    have := versionsFrom_get _ 1 hinv i hlt
    rw [hval] at this
    rw [this]
    ring
  · intro store s es n now hok
    constructor
    · rw [append, appendResume] at hok ⊢
      by_cases hc : appendRead store
          { streamId := s, events := es, expectedVersion := n, now := now } ≠ n
      · rw [if_pos hc] at hok
        exact absurd hok (by simp)
      · rw [if_neg hc]
        show (if s = s then store s ++ storedEntries s n now es else store s) =
          store s ++ storedEntries s n now es
        simp
    · exact storedEntries_map_version s n now es

/-- Claim C4 witness: after two appends the stream's second event carries
version 2. -/
theorem store_version_contiguity_witness :
    ((runAppends emptyStore demoCalls "s").get? 1).map (fun e => e.version) =
      some ((1 : Int) + 1) := by
  cases hget : (runAppends emptyStore demoCalls "s").get? 1 with
  | none => exact absurd hget (by decide)
  | some e =>
    have := (store_version_contiguity demoCalls).1 "s" 1 e hget
    simp [this]

/-- Claim C5: any non-empty event list whose sorted versions are not
exactly `1, 2, …, n`, or whose first sorted event is not the creation
kind, makes reconstruction fail with the `INVALID_EVENT_SEQUENCE` error —
never a state. -/
theorem reconstruct_malformed_fails (now : Nat) (events : List EnrollmentDomainEvent)
    (hne : events ≠ [])
    (hmal : (sortEventsByVersion events).map (·.version) ≠
        (List.range events.length).map (fun i : Nat => (i : Int) + 1) ∨
      (sortEventsByVersion events).head?.map (·.eventType) ≠ some "EnrollmentRequested") :
    reconstructEnrollmentFromEvents now events =
      .Err (createValidationError "Invalid event sequence" "INVALID_EVENT_SEQUENCE" now) ∧
    (createValidationError "Invalid event sequence" "INVALID_EVENT_SEQUENCE" now).code =
      "INVALID_EVENT_SEQUENCE" ∧
    ∀ st, reconstructEnrollmentFromEvents now events ≠ .Ok st := by
  have herr := reconstruct_invalid_eq now events hne
    (validateEventSequence_false_of_malformed events hne hmal)
  exact ⟨herr, rfl, fun st h => by rw [herr] at h; exact Result.noConfusion h⟩

/-- Claim C5 witness: the spec's `[1, 3]` version-gap scenario fails with
`INVALID_EVENT_SEQUENCE`. -/
theorem reconstruct_malformed_fails_witness :
    ([sampleEventOne, gapEventThree] ≠ ([] : List EnrollmentDomainEvent)) ∧
    ((sortEventsByVersion [sampleEventOne, gapEventThree]).map (·.version) ≠
      (List.range (List.length [sampleEventOne, gapEventThree])).map
        (fun i : Nat => (i : Int) + 1)) ∧
    (reconstructEnrollmentFromEvents 7 [sampleEventOne, gapEventThree] =
      .Err (createValidationError "Invalid event sequence" "INVALID_EVENT_SEQUENCE" 7) ∧
    (createValidationError "Invalid event sequence" "INVALID_EVENT_SEQUENCE" 7).code =
      "INVALID_EVENT_SEQUENCE" ∧
    ∀ st, reconstructEnrollmentFromEvents 7 [sampleEventOne, gapEventThree] ≠ .Ok st) :=
  ⟨by decide, by decide,
    reconstruct_malformed_fails 7 [sampleEventOne, gapEventThree] (by decide)
      (Or.inl (by decide))⟩

/-- Claim C6 (code evidence): the source's `append` is not atomic per
stream.  Its version read happens before the `await` suspension and its
check-and-write in the resumed continuation, so two appends racing on the
same stream with the same `expectedVersion` can both observe the old
version: under the event-loop interleaving both return `Ok` and the stream
ends with two version-1 events — not "exactly one succeeds". -/
theorem raced_appends_both_succeed :
    (racedAppends emptyStore racedCall racedCall).1 = .Ok () ∧
    (racedAppends emptyStore racedCall racedCall).2.1 = .Ok () ∧
    ((racedAppends emptyStore racedCall racedCall).2.2 "s").map (·.version) = [1, 1] := by
  decide

/-- Claim C7 counterexample: on a duplicate hit the handler's error code is
`DUPLICATE_ENROLLMENT`, not the claimed `DUPLICATE_REQUEST`. -/
theorem handle_duplicate_code_cex :
    (handle happyConfig duplicateEnv sampleCommand 2025 0).1 =
      .Err (mapErrorToResponse (createBusinessRuleError "DUPLICATE_ENROLLMENT"
        ("Enrollment already exists for student " ++ "S1" ++ ", course " ++ "C1" ++
          ", semester " ++ "2025-spring" ++ " (version " ++ toString (1 : Int) ++ ")")
        "DUPLICATE_ENROLLMENT" 0)) ∧
    (mapErrorToResponse (createBusinessRuleError "DUPLICATE_ENROLLMENT"
        ("Enrollment already exists for student " ++ "S1" ++ ", course " ++ "C1" ++
          ", semester " ++ "2025-spring" ++ " (version " ++ toString (1 : Int) ++ ")")
        "DUPLICATE_ENROLLMENT" 0)).code = "DUPLICATE_ENROLLMENT" ∧
    "DUPLICATE_ENROLLMENT" ≠ "DUPLICATE_REQUEST" ∧
    (handle happyConfig duplicateEnv sampleCommand 2025 0).2 = [] := by
  decide

/-- Claim C7 (amended): when the identity already has a stored state and
the duplicate-allowing flag is off, the handler stops at the duplicate
check with a `BusinessRuleError` of code `DUPLICATE_ENROLLMENT` (the
claimed `DUPLICATE_REQUEST` does not occur in the code) and performs no
side-effecting call; with the flag on, the duplicate lookup is skipped and
the check succeeds whatever the repository would return. -/
theorem handle_duplicate_enrollment (config : HandlerConfig) (env : CollabEnv)
    (cmd : RequestEnrollmentCommand) (year : Int) (now : Nat)
    (existing : RequestedEnrollment) (cap : CourseCapacity)
    (hflag : config.allowDuplicateEnrollment = false)
    (hvalid : validCommand cmd = true)
    (hsid : wellFormedId cmd.studentId = true)
    (hcid : wellFormedId cmd.courseId = true)
    (hsem : wellFormedSemester cmd.semester = true)
    (hse : env.studentExists = .Ok true) (hss : env.studentStatus = .Ok "active")
    (hce : env.courseExists = .Ok true) (hco : env.courseOffered = .Ok true)
    (hcap : env.capacity = .Ok cap) (hlt : cap.current < cap.max)
    (hfind : env.findByIdentity = .Ok (some existing)) :
    (∃ resp, (handle config env cmd year now).1 = .Err resp ∧
      resp.code = "DUPLICATE_ENROLLMENT" ∧ resp.type = "BusinessRuleError") ∧
    (handle config env cmd year now).2 = [] ∧
    (∀ config2 : HandlerConfig, config2.allowDuplicateEnrollment = true →
      checkForDuplicateEnrollment config2 env cmd.studentId cmd.courseId
        cmd.semester now = .Ok ()) := by
  have hpre := checkPrerequisites_ok env cmd.studentId cmd.courseId cmd.semester now
    cap hsid hcid hsem hse hss hce hco hcap hlt
  have hdup := checkForDuplicateEnrollment_hit config env cmd.studentId cmd.courseId
    cmd.semester now existing hflag hsid hcid hsem hfind
  have hmain : handle config env cmd year now =
      (.Err (mapErrorToResponse (createBusinessRuleError "DUPLICATE_ENROLLMENT"
        ("Enrollment already exists for student " ++ cmd.studentId ++ ", course " ++
          cmd.courseId ++ ", semester " ++ cmd.semester ++ " (version " ++
          toString existing.version ++ ")")
        "DUPLICATE_ENROLLMENT" now)), []) := by
    rw [handle, if_neg (by simp [hvalid]), hpre, hdup]
  refine ⟨⟨_, by rw [hmain], rfl, rfl⟩, by rw [hmain], ?_⟩
  intro config2 hflag2
  rw [checkForDuplicateEnrollment, if_pos hflag2]

/-- Claim C7 witness: the duplicate rejection and the flag bypass at a
concrete command and repository state. -/
theorem handle_duplicate_enrollment_witness :
    (∃ resp, (handle happyConfig duplicateEnv sampleCommand 2025 0).1 = .Err resp ∧
      resp.code = "DUPLICATE_ENROLLMENT" ∧ resp.type = "BusinessRuleError") ∧
    (handle happyConfig duplicateEnv sampleCommand 2025 0).2 = [] ∧
    (∀ config2 : HandlerConfig, config2.allowDuplicateEnrollment = true →
      checkForDuplicateEnrollment config2 duplicateEnv "S1" "C1" "2025-spring" 0 =
        .Ok ()) :=
  handle_duplicate_enrollment happyConfig duplicateEnv sampleCommand 2025 0
    (createRequestedEnrollment "S1" "C1" "2025-spring" 0)
    { max := 30, current := 0 }
    rfl (by decide) (by decide) (by decide) (by decide)
    rfl rfl rfl rfl rfl (by decide) rfl

/-- Claim C8: for well-formed inputs, `requestEnrollment` succeeds exactly
when the semester's year lies in `[currentYear - 1, currentYear + 1]`;
outside the window it returns a `BusinessRuleError` with code
`SEMESTER_OUT_OF_RANGE` and produces neither state nor event. -/
theorem requestEnrollment_semester_window (sid cid sem : String)
    (opts : RequestOptions) (year : Int) (now : Nat)
    (hsid : wellFormedId sid = true) (hcid : wellFormedId cid = true)
    (hsem : wellFormedSemester sem = true) :
    ∃ y : Int, parseIntJS (firstSplitPart sem) = some y ∧
      ((∃ r, requestEnrollment sid cid sem opts year now = .Ok r) ↔
        (year - 1 ≤ y ∧ y ≤ year + 1)) ∧
      (¬(year - 1 ≤ y ∧ y ≤ year + 1) →
        ∃ e, requestEnrollment sid cid sem opts year now = .Err e ∧
          e.typeTag = "BusinessRuleError" ∧ e.code = "SEMESTER_OUT_OF_RANGE") := by
  obtain ⟨y, hy⟩ := semesterYear_of_wellFormed sem hsem
  have hreq : requestEnrollment sid cid sem opts year now =
      if year - 1 ≤ y ∧ y ≤ year + 1 then
        .Ok { enrollment := createRequestedEnrollment sid cid sem now,
              domainEvent := createEnrollmentRequestedEvent sid cid sem 1 opts now }
      else
        .Err (createBusinessRuleError "INVALID_SEMESTER_RANGE"
          ("Cannot enroll for semester " ++ sem ++
            ". Only current and adjacent years are allowed.")
          "SEMESTER_OUT_OF_RANGE" now) := by
    rw [requestEnrollment, validateInputs, if_pos hsid, if_pos hcid, if_pos hsem]
    simp only [Result.flatMap]
    rw [applyBusinessRules]
    simp only [hy]
    by_cases hw : year - 1 ≤ y ∧ y ≤ year + 1
    · rw [if_pos hw, if_pos hw]
      rfl
    · rw [if_neg hw, if_neg hw]
      rfl
  refine ⟨y, hy, ?_, ?_⟩
  · constructor
    · rintro ⟨r, hr⟩
      by_contra hw
      rw [hreq, if_neg hw] at hr
      exact Result.noConfusion hr
    · intro hw
      exact ⟨_, by rw [hreq, if_pos hw]⟩
  · intro hw
    exact ⟨createBusinessRuleError "INVALID_SEMESTER_RANGE"
        ("Cannot enroll for semester " ++ sem ++
          ". Only current and adjacent years are allowed.")
        "SEMESTER_OUT_OF_RANGE" now,
      by rw [hreq, if_neg hw], rfl, rfl⟩

/-- Claim C8 witness: with the clock at year 2025, the semester
`2020-spring` is out of range. -/
theorem requestEnrollment_semester_window_witness :
    wellFormedId "S1" = true ∧ wellFormedId "C1" = true ∧
    wellFormedSemester "2020-spring" = true ∧
    ∃ y : Int, parseIntJS (firstSplitPart "2020-spring") = some y ∧
      ((∃ r, requestEnrollment "S1" "C1" "2020-spring" {} 2025 3 = .Ok r) ↔
        (2025 - 1 ≤ y ∧ y ≤ 2025 + 1)) ∧
      (¬(2025 - 1 ≤ y ∧ y ≤ 2025 + 1) →
        ∃ e, requestEnrollment "S1" "C1" "2020-spring" {} 2025 3 = .Err e ∧
          e.typeTag = "BusinessRuleError" ∧ e.code = "SEMESTER_OUT_OF_RANGE") :=
  ⟨by decide, by decide, by decide,
    requestEnrollment_semester_window "S1" "C1" "2020-spring" {} 2025 3
      (by decide) (by decide) (by decide)⟩

/-- Claim C9: once the persistence step succeeds, the handler's response is
the success response whatever results the publisher and the notification
service return — the event stays persisted (the trace is exactly save,
publish, notify). -/
theorem handle_publish_failure_still_success (config : HandlerConfig)
    (env : CollabEnv) (cmd : RequestEnrollmentCommand) (year : Int) (now : Nat)
    (cap : CourseCapacity) (r : RequestedWithEvent)
    (hvalid : validCommand cmd = true)
    (hsid : wellFormedId cmd.studentId = true)
    (hcid : wellFormedId cmd.courseId = true)
    (hsem : wellFormedSemester cmd.semester = true)
    (hse : env.studentExists = .Ok true) (hss : env.studentStatus = .Ok "active")
    (hce : env.courseExists = .Ok true) (hco : env.courseOffered = .Ok true)
    (hcap : env.capacity = .Ok cap) (hlt : cap.current < cap.max)
    (hflag : config.allowDuplicateEnrollment = false)
    (hfind : env.findByIdentity = .Ok none)
    (hmax : 0 < config.maxCoursesPerSemester)
    (hdom : requestEnrollment cmd.studentId cmd.courseId cmd.semester cmd.options
      year now = .Ok r)
    (hsave : env.saveResult = .Ok ()) :
    ∀ pub notif : Result Unit EnrollmentError,
      (handle config { env with publishResult := pub, notifyResult := notif }
        cmd year now).1 = .Ok (mapEnrollmentToResponse r.enrollment) ∧
      (handle config { env with publishResult := pub, notifyResult := notif }
        cmd year now).2 = [.saved, .published, .notified] := by
  intro pub notif
  have hpre := checkPrerequisites_ok
    { env with publishResult := pub, notifyResult := notif }
    cmd.studentId cmd.courseId cmd.semester now cap hsid hcid hsem hse hss hce hco
    hcap hlt
  have hdup := checkForDuplicateEnrollment_miss config
    { env with publishResult := pub, notifyResult := notif }
    cmd.studentId cmd.courseId cmd.semester now hflag hsid hcid hsem hfind
  have hlimit : checkEnrollmentLimit config cmd.studentId cmd.semester now = .Ok () := by
    rw [checkEnrollmentLimit,
      if_neg (by
        rintro (h | h)
        · exact wellFormedId_ne_empty hsid h
        · exact wellFormedSemester_ne_empty hsem h),
      if_neg (not_le.mpr hmax)]
  have hsave' : ({ env with publishResult := pub, notifyResult := notif } :
      CollabEnv).saveResult = .Ok () := hsave
  have hmain : handle config { env with publishResult := pub, notifyResult := notif }
      cmd year now =
      (.Ok (mapEnrollmentToResponse r.enrollment), [.saved, .published, .notified]) := by
    rw [handle, if_neg (by simp [hvalid]), hpre, hdup, hlimit, hdom, hsave']
  exact ⟨by rw [hmain], by rw [hmain]⟩

/-- Claim C9 witness: with both the publisher and the notification service
failing, a concrete command still gets the success response and its event
stays persisted. -/
theorem handle_publish_failure_still_success_witness :
    (handle happyConfig
      { baseEnv with
        publishResult := .Err (createValidationError "publish failed" "PUBLISH_FAILED" 0),
        notifyResult := .Err (createValidationError "notify failed" "NOTIFY_FAILED" 0) }
      sampleCommand 2025 0).1 =
      .Ok (mapEnrollmentToResponse
        (createRequestedEnrollment "S1" "C1" "2025-spring" 0)) ∧
    (handle happyConfig
      { baseEnv with
        publishResult := .Err (createValidationError "publish failed" "PUBLISH_FAILED" 0),
        notifyResult := .Err (createValidationError "notify failed" "NOTIFY_FAILED" 0) }
      sampleCommand 2025 0).2 = [.saved, .published, .notified] :=
  handle_publish_failure_still_success happyConfig baseEnv sampleCommand 2025 0
    { max := 30, current := 0 }
    { enrollment := createRequestedEnrollment "S1" "C1" "2025-spring" 0,
      domainEvent := createEnrollmentRequestedEvent "S1" "C1" "2025-spring" 1 {} 0 }
    (by decide) (by decide) (by decide) (by decide)
    rfl rfl rfl rfl rfl (by decide) rfl rfl (by decide) (by decide) rfl
    (.Err (createValidationError "publish failed" "PUBLISH_FAILED" 0))
    (.Err (createValidationError "notify failed" "NOTIFY_FAILED" 0))

/-- Claim C10: for every non-empty event list passing
`validateEventSequence`, the sorted list has a creation-kind first element
and reconstruction succeeds — the `NO_EVENTS` and `INVALID_FIRST_EVENT`
branches are unreachable, so the only error `reconstructEnrollmentFromEvents`
can return on a non-empty list is the `INVALID_EVENT_SEQUENCE` one. -/
theorem reconstruct_error_branches_unreachable (now : Nat)
    (events : List EnrollmentDomainEvent) (hne : events ≠ []) :
    (validateEventSequence events = true →
      (sortEventsByVersion events).head?.map (·.eventType) = some "EnrollmentRequested" ∧
      ∃ first, (sortEventsByVersion events).head? = some first ∧
        reconstructEnrollmentFromEvents now events =
          .Ok (some (stateOfCreationEvent first))) ∧
    (∀ e, reconstructEnrollmentFromEvents now events = .Err e →
      e = createValidationError "Invalid event sequence" "INVALID_EVENT_SEQUENCE" now ∧
      e.code = "INVALID_EVENT_SEQUENCE") := by
  constructor
  · intro hv
    obtain ⟨first, rest, hs⟩ := List.exists_cons_of_ne_nil (sortEventsByVersion_ne_nil hne)
    exact ⟨head_creation_of_validate events hne hv,
      first, by rw [hs]; rfl, reconstruct_valid_eq now events first rest hv hs⟩
  · intro e he
    cases hv : validateEventSequence events with
    | false =>
        rw [reconstruct_invalid_eq now events hne hv] at he
        have heq : e = createValidationError "Invalid event sequence"
            "INVALID_EVENT_SEQUENCE" now := by
          cases he
          rfl
        exact ⟨heq, by rw [heq]; rfl⟩
    | true =>
        obtain ⟨first, rest, hs⟩ := List.exists_cons_of_ne_nil (sortEventsByVersion_ne_nil hne)
        rw [reconstruct_valid_eq now events first rest hv hs] at he
        exact Result.noConfusion he

/-- Claim C10 witness: the unreachability facts at a concrete valid
two-event stream. -/
theorem reconstruct_error_branches_unreachable_witness :
    ([sampleEventOne, sampleEventTwo] ≠ ([] : List EnrollmentDomainEvent)) ∧
    ((validateEventSequence [sampleEventOne, sampleEventTwo] = true →
      (sortEventsByVersion [sampleEventOne, sampleEventTwo]).head?.map (·.eventType) =
        some "EnrollmentRequested" ∧
      ∃ first, (sortEventsByVersion [sampleEventOne, sampleEventTwo]).head? = some first ∧
        reconstructEnrollmentFromEvents 3 [sampleEventOne, sampleEventTwo] =
          .Ok (some (stateOfCreationEvent first))) ∧
    (∀ e, reconstructEnrollmentFromEvents 3 [sampleEventOne, sampleEventTwo] = .Err e →
      e = createValidationError "Invalid event sequence" "INVALID_EVENT_SEQUENCE" 3 ∧
      e.code = "INVALID_EVENT_SEQUENCE")) :=
  ⟨by decide, reconstruct_error_branches_unreachable 3 [sampleEventOne, sampleEventTwo]
    (by decide)⟩

end EnrollmentCore
